import Mathlib

/-!
Verification development for the background-ZMQ-IPython kernel wrapper
(`src/main.py`).  The source is a thin orchestration shim around external
libraries (ipykernel, jupyter_client, zmq, threading): it derives a
connection filename, provisions sockets, writes a connection file with
restricted permissions, and bootstraps an IPython kernel on a background
daemon thread, synchronising handle publication through a lock/condition
pair.

The shallow embedding below models:
  * the filename computation of `IPythonBackgroundKernelWrapper.__init__`
    (including a faithful `os.path.splitext`),
  * the statement-level event traces of `_create_sockets`,
    `_write_connection_file`, `_setup_streams`, `_create_kernel`,
    `_start_kernel`, `_thread_loop` and `start`,
  * the error-handling behaviour of `_cleanup_connection_file`,
    `_thread_loop` and `_endless_dummy_loop`,
  * the permission masking `os.stat(f).st_mode & 0o0700` of
    `_write_connection_file`.
-/

namespace BgZmqIPython

/-! ## `os.path.splitext` and the connection filename (`__init__`) -/

/-- Index of the last occurrence of `c` in `l` (Python `str.rfind`,
with `none` for Python's `-1`). -/
def rfindIdx (c : Char) : List Char → Option Nat
  | [] => none
  | x :: xs =>
    match rfindIdx c xs with
    | some i => some (i + 1)
    | none => if x = c then some 0 else none

/-- Python `rfind` as an integer, `-1` when the character is absent. -/
def rfindInt (c : Char) (l : List Char) : Int :=
  match rfindIdx c l with
  | some i => (i : Int)
  | none => -1

/-- Faithful model of CPython `posixpath.splitext` restricted to `sep = '/'`
and `extsep = '.'`: split at the last dot if it comes after the last path
separator and the characters between them are not all dots (a basename of
only leading dots, like `.bashrc`, has no extension). -/
def splitextList (l : List Char) : List Char × List Char :=
  let sepIndex : Int := rfindInt '/' l
  let dotIndex : Int := rfindInt '.' l
  if sepIndex < dotIndex then
    let d := dotIndex.toNat
    let f := (sepIndex + 1).toNat
    if ((l.drop f).take (d - f)).all (fun c => c = '.') then
      (l, [])
    else
      (l.take d, l.drop d)
  else
    (l, [])

def splitext (s : String) : String × String :=
  let p := splitextList s.data
  (String.mk p.1, String.mk p.2)

/-- Filename computation in `__init__`: when `connection_fn_with_pid` is set, the filename becomes
`"%s-%i%s" % (name, os.getpid(), ext)` with `(name, ext)` from
`os.path.splitext`; otherwise the given filename is kept. -/
def computeConnectionFilename (base : String) (withPid : Bool) (pid : Nat) : String :=
  if withPid then
    let p := splitext base
    p.1 ++ "-" ++ toString pid ++ p.2
  else
    base

/-! ## Event traces of the wrapper's methods

Each method of the wrapper is embedded as the list of its observable
statements, in source order.  Shared wrapper attributes and sockets are
named by small enumerations. -/

/-- The shared handles published under the lock/condition pair. -/
inductive FieldRef
  | shellStream
  | controlStream
  | kernel
  deriving DecidableEq, Repr

/-- The sockets opened by `_create_sockets`. -/
inductive SockRef
  | shellSocket
  | controlSocket
  | iopubSocket
  deriving DecidableEq, Repr

/-- Statement-level events of the background-thread methods. -/
inductive Ev
  | assertCurrentThreadIsThread
  | acquire
  | release
  | notifyAll
  | constructStream (sock : SockRef)
  | assign (field : FieldRef)
  | constructConfig
  | setConfigBanner
  | setConfigHistoryOpts
  | constructKernel
  deriving DecidableEq, Repr

/-- Trace of `_setup_streams`: assert thread identity, then inside
`with self._condition:` construct `ZMQStream(self._shell_socket)` and assign
it, construct `ZMQStream(self._control_socket)` and assign it, and
`notify_all()`; the lock is released on leaving the `with` block. -/
def setupStreamsTrace : List Ev :=
  [.assertCurrentThreadIsThread,
   .acquire,
   .constructStream .shellSocket, .assign .shellStream,
   .constructStream .controlSocket, .assign .controlStream,
   .notifyAll,
   .release]

/-- Trace of `_create_kernel`: assert thread identity, build the `Config` (banner,
history-store options), construct the `IPythonKernel`, then inside
`with self._condition:` assign `self._kernel` and `notify_all()`. -/
def createKernelTrace : List Ev :=
  [.assertCurrentThreadIsThread,
   .constructConfig, .setConfigBanner, .setConfigHistoryOpts,
   .constructKernel,
   .acquire,
   .assign .kernel,
   .notifyAll,
   .release]

/-- The events strictly between the first `acquire` and the following
`release`: the code executed while the shared lock is held. -/
def lockSection (t : List Ev) : List Ev :=
  (((t.dropWhile (fun e => !(e == Ev.acquire))).drop 1).takeWhile
    (fun e => !(e == Ev.release)))

def isAssign : Ev → Bool
  | .assign _ => true
  | _ => false

def isConstruction : Ev → Bool
  | .constructStream _ => true
  | .constructConfig => true
  | .constructKernel => true
  | _ => false

/-- The step acquires the lock, performs its mutations (assignment of each
listed shared field) under the lock, and notifies all waiters before the
release; moreover no assignment of a shared field happens outside the lock. -/
def acquiresMutatesNotifiesReleases (t : List Ev) (fields : List FieldRef) : Bool :=
  t.contains Ev.acquire &&
  t.contains Ev.release &&
  fields.all (fun f => (lockSection t).contains (Ev.assign f)) &&
  (lockSection t).contains Ev.notifyAll &&
  t.filter isAssign == (lockSection t).filter isAssign

/-- The lock is held only for assignment plus notification: nothing else
(in particular no object construction) happens in the lock section. -/
def lockHeldOnlyForAssignNotify (t : List Ev) : Bool :=
  (lockSection t).all (fun e => isAssign e || e == Ev.notifyAll)

/-- The object constructions performed while the lock is held. -/
def constructionsUnderLock (t : List Ev) : List Ev :=
  (lockSection t).filter isConstruction

/-! ## `_create_sockets` -/

/-- ZMQ socket types used by `_create_sockets`. -/
inductive SockType
  | router
  | pub
  deriving DecidableEq, Repr

/-- Statement-level events of `_create_sockets`.  Contexts are numbered in
creation order; `bindRandomPort` is `zmq` ephemeral-port binding;
`heartbeatCreate ctx portReq` is `Heartbeat(hb_ctx, (transport, ip, 0))`,
whose port request `0` means an ephemeral port of its own. -/
inductive SockEv
  | newContext (ctx : Nat)
  | newSocket (ctx : Nat) (ty : SockType) (sock : SockRef)
  | bindRandomPort (sock : SockRef)
  | heartbeatCreate (ctx : Nat) (portReq : Nat)
  | heartbeatStart
  deriving DecidableEq, Repr

/-- Trace of `_create_sockets`: one `zmq.Context()` for the three kernel sockets
(shell ROUTER, iopub PUB, control ROUTER, each bound to a random port),
then a second, fresh `zmq.Context()` for the heartbeat, which is created
with port request 0 and started. -/
def createSocketsTrace : List SockEv :=
  [.newContext 0,
   .newSocket 0 .router .shellSocket, .bindRandomPort .shellSocket,
   .newSocket 0 .pub .iopubSocket, .bindRandomPort .iopubSocket,
   .newSocket 0 .router .controlSocket, .bindRandomPort .controlSocket,
   .newContext 1,
   .heartbeatCreate 1 0,
   .heartbeatStart]

/-- The `(context, type, socket)` triples of the sockets constructed. -/
def socketCreations (t : List SockEv) : List (Nat × SockType × SockRef) :=
  t.filterMap fun e =>
    match e with
    | .newSocket c ty s => some (c, ty, s)
    | _ => none

/-- The sockets bound to an ephemeral (random) port. -/
def ephemeralBinds (t : List SockEv) : List SockRef :=
  t.filterMap fun e =>
    match e with
    | .bindRandomPort s => some s
    | _ => none

/-- The contexts on which a heartbeat is created. -/
def heartbeatContexts (t : List SockEv) : List Nat :=
  t.filterMap fun e =>
    match e with
    | .heartbeatCreate c _ => some c
    | _ => none

/-- The heartbeat's context is distinct from the context of every other
socket created in the trace. -/
def heartbeatContextSeparate (t : List SockEv) : Bool :=
  (heartbeatContexts t).all fun hc =>
    (socketCreations t).all fun s => !(s.1 == hc)

/-! ## `_write_connection_file`, `_cleanup_connection_file` and the
connection file -/

/-- Whether the connection file is on disk; a present file may still be
undeletable for this user (permission-denied on `os.remove`). -/
inductive FileStatus
  | absent
  | present (undeletable : Bool)
  deriving DecidableEq, Repr

/-- The `IOError`/`OSError` classes raised by the modelled filesystem
calls; both are caught by `_cleanup_connection_file`'s `except` clause. -/
inductive OsErr
  | fileNotFound
  | permissionDenied
  deriving DecidableEq, Repr

/-- Model of `os.remove`: deletes a present, deletable file; raises `FileNotFoundError`
(an `OSError`) on a missing file and `PermissionError` (an `OSError`) on an
undeletable one. -/
def osRemove : FileStatus → Except OsErr FileStatus
  | .absent => .error .fileNotFound
  | .present true => .error .permissionDenied
  | .present false => .ok .absent

/-- Both modelled error classes are `(IOError, OSError)` instances, hence
caught by `_cleanup_connection_file`. -/
def caughtByCleanup : OsErr → Bool
  | .fileNotFound => true
  | .permissionDenied => true

/-- Model of `_cleanup_connection_file`: `os.remove` under
`try: ... except (IOError, OSError): pass`.  An uncaught error would be
re-raised as `.error`. -/
def cleanupConnectionFile (f : FileStatus) : Except OsErr FileStatus :=
  match osRemove f with
  | .ok f' => .ok f'
  | .error e => if caughtByCleanup e then .ok f else .error e

/-- Two consecutive invocations of the cleanup callback. -/
def cleanupTwice (f : FileStatus) : Except OsErr FileStatus :=
  cleanupConnectionFile f >>= cleanupConnectionFile

/-- Whether a filesystem operation completed without raising. -/
def noRaise : Except OsErr FileStatus → Bool
  | .ok _ => true
  | .error _ => false

/-- A value stored in the structured connection file. -/
inductive FieldVal
  | str (s : String)
  | num (n : Nat)
  deriving DecidableEq, Repr

/-- The ports bound by `_create_sockets` and passed (with `ip`) to
`write_connection_file`, together with the session key. -/
structure ConnectionInfo where
  ip : String
  shell_port : Nat
  iopub_port : Nat
  control_port : Nat
  hb_port : Nat
  key : String
  deriving DecidableEq, Repr

/-- Modelled from the spec: `write_connection_file` lives in the external
`ipykernel` library, not in this repository's sources.  Per the spec, the
connection file it produces is structured data whose fields are the five
port fields plus `ip`, `key` and `transport`; the wrapper passes four bound
ports and `ip`, the library allocates the remaining `stdin` port when the
request is 0 and defaults the transport to `"tcp"`. -/
def write_connection_file (info : ConnectionInfo) (stdinPort : Nat) :
    List (String × FieldVal) :=
  [("shell_port", .num info.shell_port),
   ("iopub_port", .num info.iopub_port),
   ("stdin_port", .num stdinPort),
   ("control_port", .num info.control_port),
   ("hb_port", .num info.hb_port),
   ("ip", .str info.ip),
   ("key", .str info.key),
   ("transport", .str "tcp")]

/-- The connection file as the wrapper leaves it on disk: its structured
content and its permission bits. -/
structure ConnFile where
  fields : List (String × FieldVal)
  mode : Nat
  deriving DecidableEq, Repr

/-- Effect of `_write_connection_file` on the disk slot of the connection
file (`none` = no file): `write_connection_file` creates the file, with mode
`createMode` determined by the umask of the process, then
`os.chmod(f, os.stat(f).st_mode & 0o0700)` masks the permissions down to
owner-only. -/
def runWriteConnectionFile (prior : Option ConnFile) (info : ConnectionInfo)
    (stdinPort : Nat) (createMode : Nat) : Option ConnFile :=
  let _ := prior
  let written : ConnFile :=
    { fields := write_connection_file info stdinPort, mode := createMode }
  some { written with mode := written.mode &&& 0o0700 }

/-- Statement-level events of `_write_connection_file`, in source order. -/
inductive WriteEv
  | registerAtexitCleanup
  | writeFile
  | chmodOwnerOnly
  | logConnectHint
  deriving DecidableEq, Repr

/-- Trace of `_write_connection_file`: `atexit.register(self._cleanup_connection_file)`
first, then `write_connection_file(...)`, then the chmod, then the log line. -/
def writeConnectionFileTrace : List WriteEv :=
  [.registerAtexitCleanup, .writeFile, .chmodOwnerOnly, .logConnectHint]

/-- The events of `_write_connection_file` already executed when the write
itself fails: the prefix of the trace strictly before `writeFile`. -/
def eventsBeforeWrite : List WriteEv :=
  writeConnectionFileTrace.takeWhile (fun e => !(e == WriteEv.writeFile))

/-! ## The two interrupt-catching loops -/

/-- How a blocking call inside a loop iteration ends. -/
inductive LoopSignal
  | tick
  | keyboardInterrupt
  deriving DecidableEq, Repr

/-- Model of `_endless_dummy_loop`: `while True: try: time.sleep(1) except
KeyboardInterrupt: print(...); return`.  The argument lists the outcome of
each successive `sleep`; `some ()` means the function returned, `none`
means the loop is still running after consuming the whole list.  The
interrupt is handled locally (the return type has no error case), exactly
once (the list after the first interrupt is never inspected). -/
def endlessDummyLoop : List LoopSignal → Option Unit
  | [] => none
  | .tick :: rest => endlessDummyLoop rest
  | .keyboardInterrupt :: _ => some ()

/-- How `loop.run_forever()` ends in `_thread_loop`. -/
inductive RunForeverEnd
  | kbInterrupt
  | otherError
  deriving DecidableEq, Repr

/-- Exception handling of `_thread_loop` around `loop.run_forever()`:
`except KeyboardInterrupt: pass` makes the function return normally; the
`try` is not inside any loop, so the loop is not restarted; any other
exception propagates. -/
def threadLoopResult : RunForeverEnd → Except RunForeverEnd Unit
  | .kbInterrupt => .ok ()
  | .otherError => .error .otherError

/-! ## `start()` and the thread-identity assertions -/

/-- Statement-level events of `start()`, in source order.  `threadStart`
is `thread.start()`; the blocking primitives (`join`, condition wait,
sleep) never occur in `start`. -/
inductive StartEv
  | createThread
  | setDaemon (d : Bool)
  | recordHandle
  | threadStart
  | join
  | waitCondition
  | sleep
  deriving DecidableEq, Repr

/-- Trace of `start()`: create the thread, set `thread.daemon = True`, record it in
`self._thread`, and start it; nothing follows, so the method returns
immediately. -/
def startTrace : List StartEv :=
  [.createThread, .setDaemon true, .recordHandle, .threadStart]

/-- Whether an event of `start()` blocks the calling thread. -/
def isBlocking : StartEv → Bool
  | .join => true
  | .waitCondition => true
  | .sleep => true
  | _ => false

/-- Run `start()`'s trace for a spawned thread with handle `tid`:
`recordHandle` stores `some tid` in `self._thread`; at `threadStart` the
value stored at that moment is what the spawned thread will observe
(`self._thread` is never written again).  Returns `none` when the thread
is never started. -/
def recordedAtSpawnAux (tid : Nat) (recorded : Option Nat) :
    List StartEv → Option (Option Nat)
  | [] => none
  | .recordHandle :: rest => recordedAtSpawnAux tid (some tid) rest
  | .threadStart :: _ => some recorded
  | _ :: rest => recordedAtSpawnAux tid recorded rest

/-- The value of `self._thread` visible to the spawned thread when it
begins executing `_thread_loop`, flattened (`none` if never spawned or
spawned with no recorded handle). -/
def recordedAtSpawn (tid : Nat) : Option Nat :=
  match recordedAtSpawnAux tid none startTrace with
  | some r => r
  | none => none

/-- Model of `threading.current_thread() is self._thread`: identity of thread
handles, modelled as equality of thread ids. -/
def currentThreadIsRecorded (current : Nat) (recorded : Option Nat) : Bool :=
  recorded == some current

/-- Whether a background-thread method begins by asserting
`threading.current_thread() is self._thread`. -/
def assertsThreadIdentity (t : List Ev) : Bool :=
  t.contains Ev.assertCurrentThreadIsThread

/-! ## `_start_kernel`, `_thread_loop` and the kernel constructor call -/

/-- The wrapper attributes handed to the `IPythonKernel` constructor. -/
inductive Ref
  | session
  | shellStream
  | controlStream
  | iopubSocket
  | logger
  | userNs
  deriving DecidableEq, Repr

/-- The `traitlets` `Config` built by `_create_kernel`:
`config.InteractiveShell.banner2 = self._banner` and
`config.HistoryAccessor.connection_options = dict(check_same_thread=False)`
(the sqlite option that relaxes the history store's thread-affinity
check). -/
structure KernelConfig where
  banner2 : String
  historyCheckSameThread : Bool
  deriving DecidableEq, Repr

/-- The keyword arguments of the `IPythonKernel(...)` call in
`_create_kernel`. -/
structure KernelCtorArgs where
  session : Ref
  shell_streams : List Ref
  iopub_socket : Ref
  log : Ref
  user_ns : Ref
  config : KernelConfig
  deriving DecidableEq, Repr

/-- Constructor call of `_create_kernel`: `IPythonKernel(session=self._session,
shell_streams=[self._shell_stream, self._control_stream],
iopub_socket=self._iopub_socket, log=self._logger, user_ns=self._user_ns,
config=config)` with the config built above. -/
def createKernelArgs (banner : String) : KernelCtorArgs :=
  { session := .session
    shell_streams := [.shellStream, .controlStream]
    iopub_socket := .iopubSocket
    log := .logger
    user_ns := .userNs
    config := { banner2 := banner, historyCheckSameThread := false } }

/-- The steps `_start_kernel` runs on the background thread, in source
order: `self._setup_streams()`, `self._create_kernel()`, the log line,
`self._kernel.start()`. -/
inductive BgStep
  | setupStreams
  | createKernel
  | logStart
  | kernelServe
  deriving DecidableEq, Repr

def startKernelSteps : List BgStep :=
  [.setupStreams, .createKernel, .logStart, .kernelServe]

/-- Position of the first occurrence of `s` in `l` (length of `l` when
absent). -/
def posOf (s : BgStep) (l : List BgStep) : Nat :=
  match l with
  | [] => 0
  | x :: xs => if x == s then 0 else posOf s xs + 1

/-- Statement-level events of `_thread_loop`: assert thread identity,
create a fresh asyncio event loop for this thread, schedule
`_start_kernel` on it, run it forever (under the interrupt handler). -/
inductive ThreadLoopEv
  | assertCurrentThreadIsThread
  | newEventLoop
  | callSoonStartKernel
  | runForever
  deriving DecidableEq, Repr

def threadLoopTrace : List ThreadLoopEv :=
  [.assertCurrentThreadIsThread, .newEventLoop, .callSoonStartKernel,
   .runForever]

/-! ## Helper lemmas -/

/-- Masking a mode with `0o0700` clears every group and other permission
bit. -/
lemma and_0700_and_0077 (m : Nat) : m &&& 0o0700 &&& 0o0077 = 0 := by
  have h : (0o0700 &&& 0o0077 : Nat) = 0 := by decide
  rw [Nat.and_assoc, h, Nat.and_zero]

/-- The two parts returned by `splitextList` concatenate back to the
input. -/
lemma splitextList_concat (l : List Char) :
    (splitextList l).1 ++ (splitextList l).2 = l := by
  simp only [splitextList]
  split
  · split
    · simp
    · simp
  · simp

/-- The two parts returned by `splitext` concatenate back to the input. -/
lemma splitext_concat (s : String) : (splitext s).1 ++ (splitext s).2 = s := by
  cases s with
  | mk data =>
    show String.mk ((splitextList data).1 ++ (splitextList data).2)
        = String.mk data
    rw [splitextList_concat]

/-! ## Claims -/

/-- C4: for every base filename and pid-suffix setting, the computed
connection filename equals `<base_without_ext>-<pid><ext>` iff suffixing is
enabled, and otherwise equals the base filename unchanged (in particular it
then differs from the suffixed form). -/
theorem connection_filename_spec (base : String) (pid : Nat) :
    computeConnectionFilename base true pid
        = (splitext base).1 ++ "-" ++ toString pid ++ (splitext base).2
    ∧ computeConnectionFilename base false pid = base
    ∧ computeConnectionFilename base false pid
        ≠ (splitext base).1 ++ "-" ++ toString pid ++ (splitext base).2 := by
  refine ⟨rfl, rfl, ?_⟩
  intro h
  have hbase : computeConnectionFilename base false pid = base := rfl
  rw [hbase] at h
  have hcat := splitext_concat base
  have h1 := congrArg String.length h
  have h2 := congrArg String.length hcat
  have hdash : ("-" : String).length = 1 := rfl
  simp only [String.length_append] at h1 h2
  rw [hdash] at h1
  omega

/-- C1 (counterexample): the claim that the background-thread writer holds
the shared lock only for the instant of assignment plus notification fails
on `_setup_streams`, where the two `ZMQStream` objects are constructed
inside the `with self._condition:` block, i.e. while the lock is held. -/
theorem lock_held_across_construction_counterexample :
    lockHeldOnlyForAssignNotify setupStreamsTrace = false := by decide

/-- C1 (amended): both background-thread steps acquire the shared lock,
perform their mutations under it, and notify all waiters before releasing,
with no shared-handle assignment outside the lock; in `_create_kernel` the
kernel object is constructed before the lock is taken, so there the lock
covers only assignment plus notification, but in `_setup_streams` the two
stream objects are constructed while the lock is held. -/
theorem lock_discipline_amended :
    acquiresMutatesNotifiesReleases setupStreamsTrace
        [FieldRef.shellStream, FieldRef.controlStream] = true
    ∧ acquiresMutatesNotifiesReleases createKernelTrace [FieldRef.kernel] = true
    ∧ lockHeldOnlyForAssignNotify createKernelTrace = true
    ∧ constructionsUnderLock createKernelTrace = []
    ∧ constructionsUnderLock setupStreamsTrace =
        [Ev.constructStream SockRef.shellSocket,
         Ev.constructStream SockRef.controlSocket] := by
  decide

/-- C2: after the wrapper writes the connection file, the file exists
(`some`), parses as structured data whose fields are exactly the five port
fields plus `ip`, `key` and `transport`, and its permission bits are the
prior mode masked with `0o700`, so group and other bits are all clear. -/
theorem connection_file_after_construction (prior : Option ConnFile)
    (info : ConnectionInfo) (stdinPort createMode : Nat) :
    runWriteConnectionFile prior info stdinPort createMode
      = some { fields := write_connection_file info stdinPort,
               mode := createMode &&& 0o0700 }
    ∧ (write_connection_file info stdinPort).map Prod.fst
      = ["shell_port", "iopub_port", "stdin_port", "control_port", "hb_port",
         "ip", "key", "transport"]
    ∧ createMode &&& 0o0700 &&& 0o0077 = 0 :=
  ⟨rfl, rfl, and_0700_and_0077 createMode⟩

/-- C3: on the background thread `_start_kernel` runs `_setup_streams`
strictly before `_create_kernel` strictly before `self._kernel.start()`;
the streams are constructed from the already-open shell and control
sockets, and the kernel constructor receives the session, the two streams,
the broadcast (iopub) socket, the logger, the user namespace, and a config
that sets the welcome banner and relaxes the history-store thread-affinity
check. -/
theorem background_startup_sequence (banner : String) :
    posOf BgStep.setupStreams startKernelSteps
        < posOf BgStep.createKernel startKernelSteps
    ∧ posOf BgStep.createKernel startKernelSteps
        < posOf BgStep.kernelServe startKernelSteps
    ∧ threadLoopTrace.contains ThreadLoopEv.callSoonStartKernel = true
    ∧ setupStreamsTrace.contains (Ev.constructStream SockRef.shellSocket) = true
    ∧ setupStreamsTrace.contains (Ev.constructStream SockRef.controlSocket) = true
    ∧ createKernelArgs banner =
        { session := Ref.session,
          shell_streams := [Ref.shellStream, Ref.controlStream],
          iopub_socket := Ref.iopubSocket,
          log := Ref.logger,
          user_ns := Ref.userNs,
          config := { banner2 := banner, historyCheckSameThread := false } } :=
  ⟨by decide, by decide, by decide, by decide, by decide, rfl⟩

/-- C5: a keyboard interrupt delivered to the keep-alive loop makes it
return normally after any number of completed sleeps, regardless of what
would follow the interrupt (caught once, no restart, no propagation), and a
keyboard interrupt ending `run_forever` in `_thread_loop` is likewise
swallowed so the function returns normally. -/
theorem keyboard_interrupt_local_termination (pre post : List LoopSignal)
    (h : pre.all (fun s => s == LoopSignal.tick) = true) :
    endlessDummyLoop (pre ++ LoopSignal.keyboardInterrupt :: post) = some ()
    ∧ threadLoopResult RunForeverEnd.kbInterrupt = Except.ok () := by
  refine ⟨?_, rfl⟩
  induction pre with
  | nil => rfl
  | cons x xs ih =>
    simp only [List.all_cons, Bool.and_eq_true] at h
    cases x with
    | tick => exact ih h.2
    | keyboardInterrupt => exact absurd h.1 (by decide)

/-- C5 (witness): the keep-alive loop returns after two completed sleeps
and one interrupt, and the background loop swallows the interrupt. -/
theorem keyboard_interrupt_local_termination_witness :
    endlessDummyLoop ([LoopSignal.tick, LoopSignal.tick]
        ++ LoopSignal.keyboardInterrupt :: [LoopSignal.tick]) = some ()
    ∧ threadLoopResult RunForeverEnd.kbInterrupt = Except.ok () :=
  keyboard_interrupt_local_termination [LoopSignal.tick, LoopSignal.tick]
    [LoopSignal.tick] (by decide)

/-- C6: the connection-file cleanup callback never raises (missing-file and
permission errors are swallowed), and on any state where the file is not
permission-protected, running it twice leaves the file absent; running it
on an already-missing file succeeds and leaves the file absent. -/
theorem cleanup_connection_file_spec (f : FileStatus)
    (h : f ≠ FileStatus.present true) :
    noRaise (cleanupConnectionFile f) = true
    ∧ noRaise (cleanupConnectionFile (FileStatus.present true)) = true
    ∧ cleanupTwice f = Except.ok FileStatus.absent
    ∧ cleanupConnectionFile FileStatus.absent = Except.ok FileStatus.absent := by
  cases f with
  | absent => exact ⟨rfl, rfl, rfl, rfl⟩
  | present u =>
    cases u with
    | false => exact ⟨rfl, rfl, rfl, rfl⟩
    | true => exact absurd rfl h

/-- C6 (witness): the cleanup contract at a present, deletable file. -/
theorem cleanup_connection_file_spec_witness :
    FileStatus.present false ≠ FileStatus.present true
    ∧ (noRaise (cleanupConnectionFile (FileStatus.present false)) = true
       ∧ noRaise (cleanupConnectionFile (FileStatus.present true)) = true
       ∧ cleanupTwice (FileStatus.present false) = Except.ok FileStatus.absent
       ∧ cleanupConnectionFile FileStatus.absent
           = Except.ok FileStatus.absent) :=
  ⟨by decide, cleanup_connection_file_spec (FileStatus.present false) (by decide)⟩

/-- C7: `_create_sockets` constructs exactly three sockets (shell ROUTER,
iopub PUB, control ROUTER), each bound to an ephemeral port, and starts a
heartbeat with its own ephemeral port (request 0) on a second context not
shared with the context of the three sockets. -/
theorem socket_provisioning_spec :
    socketCreations createSocketsTrace
      = [(0, SockType.router, SockRef.shellSocket),
         (0, SockType.pub, SockRef.iopubSocket),
         (0, SockType.router, SockRef.controlSocket)]
    ∧ (socketCreations createSocketsTrace).length = 3
    ∧ ephemeralBinds createSocketsTrace
      = [SockRef.shellSocket, SockRef.iopubSocket, SockRef.controlSocket]
    ∧ createSocketsTrace.contains (SockEv.heartbeatCreate 1 0) = true
    ∧ createSocketsTrace.contains SockEv.heartbeatStart = true
    ∧ heartbeatContextSeparate createSocketsTrace = true := by
  decide

/-- C8: `start()` sets the daemon flag on the new thread, records the
handle, starts the thread, and performs no blocking operation; its last
statement is `thread.start()`, so it returns immediately. -/
theorem start_spawns_daemon_nonblocking :
    startTrace.contains (StartEv.setDaemon true) = true
    ∧ startTrace.contains StartEv.recordHandle = true
    ∧ startTrace.contains StartEv.threadStart = true
    ∧ startTrace.all (fun e => !isBlocking e) = true
    ∧ startTrace.getLast? = some StartEv.threadStart := by
  decide

/-- C9: `start()` assigns `self._thread` before `thread.start()`, so the
spawned thread observes its own handle recorded and every
`current_thread() is self._thread` assertion — present in `_thread_loop`,
`_setup_streams` and `_create_kernel` — succeeds on the spawned thread. -/
theorem thread_identity_asserts_succeed (tid : Nat) :
    recordedAtSpawn tid = some tid
    ∧ currentThreadIsRecorded tid (recordedAtSpawn tid) = true
    ∧ assertsThreadIdentity setupStreamsTrace = true
    ∧ assertsThreadIdentity createKernelTrace = true
    ∧ threadLoopTrace.contains ThreadLoopEv.assertCurrentThreadIsThread
        = true := by
  refine ⟨rfl, ?_, by decide, by decide, by decide⟩
  simp [currentThreadIsRecorded, recordedAtSpawn, recordedAtSpawnAux,
    startTrace]

/-- C10: in `_write_connection_file` the only statement before the file
write is the `atexit` registration of the cleanup callback, so the deletion
hook is registered even when the write itself fails; run at process
termination on the then-missing file, the hook swallows the missing-file
error. -/
theorem atexit_registered_before_write :
    eventsBeforeWrite = [WriteEv.registerAtexitCleanup]
    ∧ writeConnectionFileTrace.contains WriteEv.registerAtexitCleanup = true
    ∧ cleanupConnectionFile FileStatus.absent
        = Except.ok FileStatus.absent :=
  ⟨by decide, by decide, rfl⟩

end BgZmqIPython
